import Mathlib

/-!
Verification of the gaze-tracking overlay (FaceLooker) and the obfuscated
email link (EmailLink) of a personal-portfolio site.

The numeric pipeline of `FaceLooker.tsx` is embedded over `ℚ`: on finite
values the component performs only field arithmetic, `Math.round`,
`Math.min` and `Math.max`, and `Math.round` agrees with Mathlib's `round`
(both round half up, `floor (x + 1/2)`).  `Math.min` / `Math.max` are
embedded as the if-then-else the JS functions compute on non-NaN arguments.
A second, explicit embedding over a JS-number type with infinities and NaN
(`JSNum`) is used for the claims about non-finite inputs and zero-sized
tracking regions, where real-number arithmetic is not faithful.

The event-driven part of the component (pointer handlers, the single idle
timer, the `onCenter` / `onLooking` callbacks) is embedded as an explicit
state machine: a state type, one transition function per handler, and a step
function over an event alphabet.  Timers are modelled by identifiers in a
pending list; `setTimeout` appends a fresh identifier and stores it in the
ref, `clearTimeout` removes the ref'd identifier, and the environment may
fire any still-pending identifier.
-/

namespace Portfolio



/-- JS `Math.min` on two non-NaN numbers. -/
def jsMin (a b : ℚ) : ℚ := if a ≤ b then a else b

/-- JS `Math.max` on two non-NaN numbers. -/
def jsMax (a b : ℚ) : ℚ := if a ≤ b then b else a

/-- The helper `clamp(value, min, max) = Math.max(min, Math.min(max, value))`
from FaceLooker.tsx lines 94-96. -/
def clamp (value mn mx : ℚ) : ℚ := jsMax mn (jsMin mx value)

/-- The helper `quantizeToGrid` from FaceLooker.tsx lines 99-106: map a
normalized value linearly onto `[minValue, maxValue]`, round to the nearest
multiple of `step`, and clamp back into `[minValue, maxValue]`. -/
def quantizeToGrid (minValue maxValue step val : ℚ) : ℚ :=
  let raw := minValue + ((val + 1) * (maxValue - minValue)) / 2
  let snapped := (round (raw / step) : ℚ) * step
  clamp snapped minValue maxValue

/-- The round-to-step-and-clamp operation alone (FaceLooker.tsx lines
102-103), without the preceding linear map; used to state idempotence of the
quantization. -/
def snapToStep (minValue maxValue step x : ℚ) : ℚ :=
  clamp ((round (x / step) : ℚ) * step) minValue maxValue

/-- Result record of `getBackgroundPosition` (FaceLooker.tsx line 88). -/
structure BGPos where
  x : ℚ
  y : ℚ
  col : ℚ
  row : ℚ
deriving DecidableEq

/-- The helper `getBackgroundPosition` from FaceLooker.tsx lines 69-91:
resolve pupil values to a clamped grid cell and a pixel render offset. -/
def getBackgroundPosition (minValue step gridSize spriteWidth pupilX pupilY : ℚ) : BGPos :=
  let colIndex : ℚ := (round ((pupilX - minValue) / step) : ℚ)
  let rowIndex : ℚ := (round ((pupilY - minValue) / step) : ℚ)
  let clampedCol := jsMax 0 (jsMin (gridSize - 1) colIndex)
  let clampedRow := jsMax 0 (jsMin (gridSize - 1) rowIndex)
  let actualCellSize := spriteWidth / gridSize
  ⟨-(clampedCol * actualCellSize), -(clampedRow * actualCellSize), clampedCol, clampedRow⟩

/-! Event-driven part of the component: state machine embedding.

State fields mirror the three `useState` hooks plus the two refs of the
component; the idle timer is modelled by identifiers (`setTimeout` returns a
fresh identifier and stores it in `idleTimerRef`, `clearTimeout` removes the
ref'd identifier from the pending list, and the environment may fire any
still-pending identifier, which removes it).  Callback invocations
(`onCenter` / `onLooking`) are collected as an output list. -/

/-- Result of `getBoundingClientRect` for the tracking container. -/
structure DomRect where
  left : ℚ
  top : ℚ
  width : ℚ
  height : ℚ

/-- Component props relevant to the numeric pipeline (FaceLooker.tsx lines
47-61), plus the current tracking container (none while unattached). -/
structure Config where
  spriteWidth : ℚ
  gridSize : ℚ
  minValue : ℚ
  maxValue : ℚ
  step : ℚ
  container : Option DomRect

/-- The two observable callbacks of the component. -/
inductive Callback where
  | center
  | looking
deriving DecidableEq

/-- Component state: the three `useState` values, the pending idle timers,
the `idleTimerRef` content, and a counter producing fresh timer ids. -/
structure FLState where
  currentPupil : ℚ × ℚ
  backgroundPosition : ℚ × ℚ
  gridPosition : ℚ × ℚ
  pendingTimers : List ℕ
  idleTimerRef : Option ℕ
  nextTimerId : ℕ

/-- The handler `updatePupilPosition` (FaceLooker.tsx lines 109-133): store
the pupil, derive background and grid position, and, when `triggerCallback`
is set, invoke `onCenter` exactly when the pupil is `(0, 0)` and `onLooking`
otherwise. -/
def updatePupilPosition (cfg : Config) (s : FLState) (pupilX pupilY : ℚ)
    (triggerCallback : Bool) : FLState × List Callback :=
  let pos := getBackgroundPosition cfg.minValue cfg.step cfg.gridSize cfg.spriteWidth
    pupilX pupilY
  ({ s with
      currentPupil := (pupilX, pupilY),
      backgroundPosition := (pos.x, pos.y),
      gridPosition := (pos.col, pos.row) },
    if triggerCallback then
      if pupilX = 0 ∧ pupilY = 0 then [Callback.center] else [Callback.looking]
    else [])

/-- The handler `fadeToCenter` (FaceLooker.tsx lines 136-138): it only
invokes `onCenter`, without updating any position state. -/
def fadeToCenterCallbacks : List Callback := [Callback.center]

/-- Effect of `clearTimeout(idleTimerRef.current)` guarded by the null check
(FaceLooker.tsx lines 164-166 and 195-197). -/
def clearIdleTimer (s : FLState) : FLState :=
  match s.idleTimerRef with
  | none => s
  | some id => { s with pendingTimers := s.pendingTimers.erase id }

/-- Effect of `idleTimerRef.current = setTimeout(...)` (FaceLooker.tsx lines
169-171 and 198-200): schedule a fresh timer and remember it in the ref. -/
def startIdleTimer (s : FLState) : FLState :=
  { s with
      pendingTimers := s.pendingTimers ++ [s.nextTimerId],
      idleTimerRef := some s.nextTimerId,
      nextTimerId := s.nextTimerId + 1 }

/-- The handler `handlePointerMove` (FaceLooker.tsx lines 141-174): no-op
when the container ref is unset, otherwise normalize, clamp, quantize,
update the pupil (with callbacks), then clear and restart the idle timer. -/
def handlePointerMove (cfg : Config) (s : FLState) (clientX clientY : ℚ) :
    FLState × List Callback :=
  match cfg.container with
  | none => (s, [])
  | some rect =>
    let centerX := rect.left + rect.width / 2
    let centerY := rect.top + rect.height / 2
    let nx := (clientX - centerX) / (rect.width / 2)
    let ny := (centerY - clientY) / (rect.height / 2)
    let clampedX := clamp nx (-1) 1
    let clampedY := clamp ny (-1) 1
    let pupilX := quantizeToGrid cfg.minValue cfg.maxValue cfg.step clampedX
    let pupilY := quantizeToGrid cfg.minValue cfg.maxValue cfg.step clampedY
    let r := updatePupilPosition cfg s pupilX pupilY true
    (startIdleTimer (clearIdleTimer r.1), r.2)

/-- The handler `handleTouchEnd` (FaceLooker.tsx lines 194-201): clear any
pending idle timer and start a new one; no position update, no callback. -/
def handleTouchEnd (s : FLState) : FLState :=
  startIdleTimer (clearIdleTimer s)

/-- Firing of a scheduled idle timer: only a still-pending timer can fire;
it is removed and the timeout body runs `fadeToCenter()`. -/
def fireIdleTimer (s : FLState) (id : ℕ) : FLState × List Callback :=
  if id ∈ s.pendingTimers then
    ({ s with pendingTimers := s.pendingTimers.erase id }, fadeToCenterCallbacks)
  else (s, [])

/-- Events delivered to the component after mount. -/
inductive Event where
  | mouseMove (clientX clientY : ℚ)
  | touchMove (touches : List (ℚ × ℚ))
  | touchEnd
  | timerFire (id : ℕ)

/-- One step of the component: dispatch an event to its handler
(FaceLooker.tsx lines 180-201). `touchmove` uses the first touch if any. -/
def stepEvent (cfg : Config) (s : FLState) : Event → FLState × List Callback
  | Event.mouseMove x y => handlePointerMove cfg s x y
  | Event.touchMove ts =>
    match ts with
    | [] => (s, [])
    | t :: _ => handlePointerMove cfg s t.1 t.2
  | Event.touchEnd => (handleTouchEnd s, [])
  | Event.timerFire id => fireIdleTimer s id

/-- The initial `useState` values (FaceLooker.tsx lines 62-66). -/
def initialState : FLState :=
  ⟨(0, 0), (0, 0), (0, 0), [], none, 0⟩

/-- Mount effect (FaceLooker.tsx lines 176-178): initialize at center
position `(0, 0)` without triggering a callback. -/
def mountComponent (cfg : Config) : FLState × List Callback :=
  updatePupilPosition cfg initialState 0 0 false

/-- Process a list of events, accumulating emitted callbacks. -/
def runEvents (cfg : Config) (s : FLState) : List Event → FLState × List Callback
  | [] => (s, [])
  | e :: es =>
    let r := stepEvent cfg s e
    let r2 := runEvents cfg r.1 es
    (r2.1, r.2 ++ r2.2)

/-- Invariant tying the pending timers to the idle-timer ref: either no
timer is outstanding, or exactly the ref'd one is. -/
def TimerInv (s : FLState) : Prop :=
  s.pendingTimers = [] ∨ ∃ id, s.pendingTimers = [id] ∧ s.idleTimerRef = some id

/-! JS-number embedding for the failure-semantics claims.

IEEE-754 doubles restricted to the values and operations this pipeline can
produce: exact rationals, the two infinities and NaN.  Rounding error is not
modelled (the claims under test concern non-finite propagation, not
precision), and a zero divisor is treated as `+0`, which matches this code:
the only divisors are `rect.width / 2` and `rect.height / 2`, and
`getBoundingClientRect` never reports a negative width or height. -/

/-- A JavaScript number: finite value, one of the two infinities, or NaN. -/
inductive JSNum where
  | fin (q : ℚ)
  | posInf
  | negInf
  | nan
deriving DecidableEq

/-- JS addition. -/
def jadd : JSNum → JSNum → JSNum
  | JSNum.nan, _ => JSNum.nan
  | _, JSNum.nan => JSNum.nan
  | JSNum.fin a, JSNum.fin b => JSNum.fin (a + b)
  | JSNum.posInf, JSNum.negInf => JSNum.nan
  | JSNum.negInf, JSNum.posInf => JSNum.nan
  | JSNum.posInf, _ => JSNum.posInf
  | _, JSNum.posInf => JSNum.posInf
  | JSNum.negInf, _ => JSNum.negInf
  | _, JSNum.negInf => JSNum.negInf

/-- JS subtraction. -/
def jsub : JSNum → JSNum → JSNum
  | JSNum.nan, _ => JSNum.nan
  | _, JSNum.nan => JSNum.nan
  | JSNum.fin a, JSNum.fin b => JSNum.fin (a - b)
  | JSNum.posInf, JSNum.posInf => JSNum.nan
  | JSNum.negInf, JSNum.negInf => JSNum.nan
  | JSNum.posInf, _ => JSNum.posInf
  | _, JSNum.posInf => JSNum.negInf
  | JSNum.negInf, _ => JSNum.negInf
  | _, JSNum.negInf => JSNum.posInf

/-- JS multiplication. -/
def jmul : JSNum → JSNum → JSNum
  | JSNum.nan, _ => JSNum.nan
  | _, JSNum.nan => JSNum.nan
  | JSNum.fin a, JSNum.fin b => JSNum.fin (a * b)
  | JSNum.posInf, JSNum.fin b =>
    if b = 0 then JSNum.nan else if 0 < b then JSNum.posInf else JSNum.negInf
  | JSNum.negInf, JSNum.fin b =>
    if b = 0 then JSNum.nan else if 0 < b then JSNum.negInf else JSNum.posInf
  | JSNum.fin a, JSNum.posInf =>
    if a = 0 then JSNum.nan else if 0 < a then JSNum.posInf else JSNum.negInf
  | JSNum.fin a, JSNum.negInf =>
    if a = 0 then JSNum.nan else if 0 < a then JSNum.negInf else JSNum.posInf
  | JSNum.posInf, JSNum.posInf => JSNum.posInf
  | JSNum.posInf, JSNum.negInf => JSNum.negInf
  | JSNum.negInf, JSNum.posInf => JSNum.negInf
  | JSNum.negInf, JSNum.negInf => JSNum.posInf

/-- JS division; the zero divisor is `+0` here (see section comment). -/
def jdiv : JSNum → JSNum → JSNum
  | JSNum.nan, _ => JSNum.nan
  | _, JSNum.nan => JSNum.nan
  | JSNum.fin a, JSNum.fin b =>
    if b = 0 then
      if a = 0 then JSNum.nan else if 0 < a then JSNum.posInf else JSNum.negInf
    else JSNum.fin (a / b)
  | JSNum.posInf, JSNum.fin b => if 0 ≤ b then JSNum.posInf else JSNum.negInf
  | JSNum.negInf, JSNum.fin b => if 0 ≤ b then JSNum.negInf else JSNum.posInf
  | JSNum.fin _, JSNum.posInf => JSNum.fin 0
  | JSNum.fin _, JSNum.negInf => JSNum.fin 0
  | _, _ => JSNum.nan

/-- JS `Math.min`: NaN contaminates, otherwise the smaller argument. -/
def jmin : JSNum → JSNum → JSNum
  | JSNum.nan, _ => JSNum.nan
  | _, JSNum.nan => JSNum.nan
  | JSNum.negInf, _ => JSNum.negInf
  | _, JSNum.negInf => JSNum.negInf
  | JSNum.posInf, b => b
  | a, JSNum.posInf => a
  | JSNum.fin a, JSNum.fin b => JSNum.fin (jsMin a b)

/-- JS `Math.max`: NaN contaminates, otherwise the larger argument. -/
def jmax : JSNum → JSNum → JSNum
  | JSNum.nan, _ => JSNum.nan
  | _, JSNum.nan => JSNum.nan
  | JSNum.posInf, _ => JSNum.posInf
  | _, JSNum.posInf => JSNum.posInf
  | JSNum.negInf, b => b
  | a, JSNum.negInf => a
  | JSNum.fin a, JSNum.fin b => JSNum.fin (jsMax a b)

/-- JS `Math.round`: NaN and the infinities pass through. -/
def jround : JSNum → JSNum
  | JSNum.fin q => JSNum.fin ((round q : ℤ) : ℚ)
  | x => x

/-- The `clamp` helper of FaceLooker.tsx lines 94-96 at JS-number level. -/
def jclamp (value mn mx : JSNum) : JSNum := jmax mn (jmin mx value)

/-- The `quantizeToGrid` helper of FaceLooker.tsx lines 99-106 at JS-number
level. -/
def jquantizeToGrid (minValue maxValue step : ℚ) (val : JSNum) : JSNum :=
  let raw := jadd (JSNum.fin minValue)
    (jdiv (jmul (jadd val (JSNum.fin 1)) (JSNum.fin (maxValue - minValue))) (JSNum.fin 2))
  let snapped := jmul (jround (jdiv raw (JSNum.fin step))) (JSNum.fin step)
  jclamp snapped (JSNum.fin minValue) (JSNum.fin maxValue)

/-- The `handlePointerMove` handler (FaceLooker.tsx lines 141-174) at
JS-number level, up to the pupil values passed to `updatePupilPosition`:
`none` means the early return was taken (no state update, no callback, no
timer restart); `some (px, py)` means the update proceeds with these pupil
values. -/
def handlePointerMoveJS (container : Option DomRect) (minValue maxValue step : ℚ)
    (clientX clientY : JSNum) : Option (JSNum × JSNum) :=
  match container with
  | none => none
  | some rect =>
    let centerX := rect.left + rect.width / 2
    let centerY := rect.top + rect.height / 2
    let nx := jdiv (jsub clientX (JSNum.fin centerX)) (JSNum.fin (rect.width / 2))
    let ny := jdiv (jsub (JSNum.fin centerY) clientY) (JSNum.fin (rect.height / 2))
    let clampedX := jclamp nx (JSNum.fin (-1)) (JSNum.fin 1)
    let clampedY := jclamp ny (JSNum.fin (-1)) (JSNum.fin 1)
    some (jquantizeToGrid minValue maxValue step clampedX,
      jquantizeToGrid minValue maxValue step clampedY)

/-! Email obfuscation.  Strings are embedded as lists of UTF-16 code units
(the values `charCodeAt` returns and `String.fromCharCode` consumes). -/

/-- One character of the `rot13` transform shared by EmailLink.tsx lines
25-32 and the generator script lines 30-37: letters rotate by 13 within
their case, everything else is fixed. -/
def rot13Char (c : ℕ) : ℕ :=
  if 65 ≤ c ∧ c ≤ 90 then (c - 65 + 13) % 26 + 65
  else if 97 ≤ c ∧ c ≤ 122 then (c - 97 + 13) % 26 + 97
  else c

/-- The `rot13` transform applied characterwise. -/
def rot13 (s : List ℕ) : List ℕ := s.map rot13Char

/-- The XOR loop shared by EmailLink.tsx lines 41-45 and the generator
script lines 43-47: character `i` is XORed with key character
`i % key.length`. -/
def xorCycle (key : List ℕ) : ℕ → List ℕ → List ℕ
  | _, [] => []
  | i, c :: rest => (c ^^^ key.getD (i % key.length) 0) :: xorCycle key (i + 1) rest

/-- Effect of `Buffer.from(str, 'binary')` in the generator script line 50:
each UTF-16 code unit is truncated to its low byte. -/
def toBinaryBytes (s : List ℕ) : List ℕ := s.map (fun c => c % 256)

/-- Value of the standard Base64 alphabet at index `s < 64`. -/
def b64Char (s : ℕ) : ℕ :=
  if s < 26 then 65 + s
  else if s < 52 then 97 + (s - 26)
  else if s < 62 then 48 + (s - 52)
  else if s = 62 then 43
  else 47

/-- Index of a character of the standard Base64 alphabet. -/
def b64Index (c : ℕ) : ℕ :=
  if 65 ≤ c ∧ c ≤ 90 then c - 65
  else if 97 ≤ c ∧ c ≤ 122 then c - 97 + 26
  else if 48 ≤ c ∧ c ≤ 57 then c - 48 + 52
  else if c = 43 then 62
  else 63

/-- Base64 encoding of a byte list with `=` (code 61) padding, as produced
by `Buffer.toString('base64')` in the generator script line 50. -/
def b64Encode : List ℕ → List ℕ
  | [] => []
  | [b0] => [b64Char (b0 / 4), b64Char (b0 % 4 * 16), 61, 61]
  | [b0, b1] => [b64Char (b0 / 4), b64Char (b0 % 4 * 16 + b1 / 16), b64Char (b1 % 16 * 4), 61]
  | b0 :: b1 :: b2 :: rest =>
    b64Char (b0 / 4) :: b64Char (b0 % 4 * 16 + b1 / 16) ::
      b64Char (b1 % 16 * 4 + b2 / 64) :: b64Char (b2 % 64) :: b64Encode rest

/-- Base64 decoding with `=` padding, as computed by `atob` in
EmailLink.tsx line 37. -/
def b64Decode : List ℕ → List ℕ
  | c0 :: c1 :: c2 :: c3 :: rest =>
    if c2 = 61 then [b64Index c0 * 4 + b64Index c1 / 16]
    else if c3 = 61 then
      [b64Index c0 * 4 + b64Index c1 / 16, b64Index c1 % 16 * 16 + b64Index c2 / 4]
    else
      (b64Index c0 * 4 + b64Index c1 / 16) ::
        (b64Index c1 % 16 * 16 + b64Index c2 / 4) ::
        (b64Index c2 % 4 * 64 + b64Index c3) :: b64Decode rest
  | _ => []

/-- The generator script (scripts/obfuscate-email.mjs lines 29-50): XOR the
email with the key, ROT13-encode the key, Base64-encode the ciphertext.
Returns `(encryptedData, encodedKey)`. -/
def obfuscateEmail (email key : List ℕ) : List ℕ × List ℕ :=
  let encodedKey := rot13 key
  let encrypted := xorCycle key 0 email
  let encryptedData := b64Encode (toBinaryBytes encrypted)
  (encryptedData, encodedKey)

/-- The decode pipeline of `handleClick` (EmailLink.tsx lines 21-49): ROT13
the key, Base64-decode the data, XOR with the decoded key. -/
def handleClickDecode (encryptedData encodedKey : List ℕ) : List ℕ :=
  let xorKey := rot13 encodedKey
  let encryptedBytes := b64Decode encryptedData
  xorCycle xorKey 0 encryptedBytes

-- ============ THEOREMS ============

theorem jsMin_eq (a b : ℚ) : jsMin a b = min a b := by
  unfold jsMin; rw [min_def]

theorem jsMax_eq (a b : ℚ) : jsMax a b = max a b := by
  unfold jsMax; rw [max_def]

theorem clamp_eq (value mn mx : ℚ) : clamp value mn mx = max mn (min mx value) := by
  unfold clamp; rw [jsMin_eq, jsMax_eq]

/-- Monotonicity of rounding, needed to bound the rounded grid index. -/
theorem round_mono_rat {a b : ℚ} (h : a ≤ b) : round a ≤ round b := by
  rw [round_eq, round_eq]
  exact Int.floor_mono (by linarith)

/-- Floor evaluation helper for concrete rationals. -/
theorem floor_eq_of {q : ℚ} {m : ℤ} (h1 : (m : ℚ) ≤ q) (h2 : q < (m : ℚ) + 1) :
    ⌊q⌋ = m :=
  Int.floor_eq_iff.mpr ⟨h1, by linarith⟩

/-- Round evaluation helper for concrete rationals. -/
theorem round_eq_of {q : ℚ} {m : ℤ} (h1 : (m : ℚ) ≤ q + 1 / 2) (h2 : q + 1 / 2 < (m : ℚ) + 1) :
    round q = m := by
  rw [round_eq]; exact floor_eq_of h1 h2

/-- Evaluation lemma for `quantizeToGrid`: once the rounded index is known,
the result is the clamped multiple of `step`. -/
theorem quantizeToGrid_eval (minValue maxValue step val : ℚ) (m : ℤ)
    (h1 : (m : ℚ) ≤ (minValue + ((val + 1) * (maxValue - minValue)) / 2) / step + 1 / 2)
    (h2 : (minValue + ((val + 1) * (maxValue - minValue)) / 2) / step + 1 / 2 < (m : ℚ) + 1) :
    quantizeToGrid minValue maxValue step val = clamp ((m : ℚ) * step) minValue maxValue := by
  simp only [quantizeToGrid]
  rw [round_eq_of h1 h2]

/-- Evaluation lemma for `getBackgroundPosition`: once the two rounded grid
indices are known, the cell and offset are the clamped values. -/
theorem getBackgroundPosition_eval (minValue step gridSize spriteWidth pupilX pupilY : ℚ)
    (mc mr : ℤ)
    (hc1 : (mc : ℚ) ≤ (pupilX - minValue) / step + 1 / 2)
    (hc2 : (pupilX - minValue) / step + 1 / 2 < (mc : ℚ) + 1)
    (hr1 : (mr : ℚ) ≤ (pupilY - minValue) / step + 1 / 2)
    (hr2 : (pupilY - minValue) / step + 1 / 2 < (mr : ℚ) + 1) :
    getBackgroundPosition minValue step gridSize spriteWidth pupilX pupilY =
      ⟨-(jsMax 0 (jsMin (gridSize - 1) (mc : ℚ)) * (spriteWidth / gridSize)),
        -(jsMax 0 (jsMin (gridSize - 1) (mr : ℚ)) * (spriteWidth / gridSize)),
        jsMax 0 (jsMin (gridSize - 1) (mc : ℚ)),
        jsMax 0 (jsMin (gridSize - 1) (mr : ℚ))⟩ := by
  simp only [getBackgroundPosition]
  rw [round_eq_of hc1 hc2, round_eq_of hr1 hr2]

/-- C5. For every pair of pupil input values, of any rational value, the
grid coordinate computed by `getBackgroundPosition` satisfies
`0 ≤ col ≤ gridSize - 1` and `0 ≤ row ≤ gridSize - 1` (given at least one
grid cell exists). -/
theorem grid_coordinate_clamped (minValue step gridSize spriteWidth pupilX pupilY : ℚ)
    (hg : 1 ≤ gridSize) :
    0 ≤ (getBackgroundPosition minValue step gridSize spriteWidth pupilX pupilY).col ∧
    (getBackgroundPosition minValue step gridSize spriteWidth pupilX pupilY).col ≤ gridSize - 1 ∧
    0 ≤ (getBackgroundPosition minValue step gridSize spriteWidth pupilX pupilY).row ∧
    (getBackgroundPosition minValue step gridSize spriteWidth pupilX pupilY).row ≤ gridSize - 1 := by
  unfold getBackgroundPosition
  simp only [jsMin_eq, jsMax_eq]
  refine ⟨le_max_left _ _, ?_, le_max_left _ _, ?_⟩ <;>
    exact max_le (by linarith) (min_le_left _ _)

/-- Witness for `grid_coordinate_clamped` at a concrete input. -/
theorem grid_coordinate_clamped_witness :
    0 ≤ (getBackgroundPosition (-15) 3 11 1100 100 (-100)).col ∧
    (getBackgroundPosition (-15) 3 11 1100 100 (-100)).col ≤ 11 - 1 ∧
    0 ≤ (getBackgroundPosition (-15) 3 11 1100 100 (-100)).row ∧
    (getBackgroundPosition (-15) 3 11 1100 100 (-100)).row ≤ 11 - 1 :=
  grid_coordinate_clamped (-15) 3 11 1100 100 (-100) (by norm_num)

/-- C6. With the default parameters, normalized input 1 quantizes to pupil
value 15, pupil (15, 15) resolves to grid cell (10, 10), the cell size for
sprite width 1100 is 100, the render offset is (-1000, -1000); and in
general the render offset of the resolved cell (col, row) is
`(-col * cellSize, -row * cellSize)` with `cellSize = spriteWidth / gridSize`. -/
theorem default_scenario_and_offset :
    quantizeToGrid (-15) 15 3 1 = 15 ∧
    (getBackgroundPosition (-15) 3 11 1100 15 15).col = 10 ∧
    (getBackgroundPosition (-15) 3 11 1100 15 15).row = 10 ∧
    (1100 : ℚ) / 11 = 100 ∧
    (getBackgroundPosition (-15) 3 11 1100 15 15).x = -1000 ∧
    (getBackgroundPosition (-15) 3 11 1100 15 15).y = -1000 ∧
    ∀ minValue step gridSize spriteWidth px py,
      (getBackgroundPosition minValue step gridSize spriteWidth px py).x =
        -((getBackgroundPosition minValue step gridSize spriteWidth px py).col *
          (spriteWidth / gridSize)) ∧
      (getBackgroundPosition minValue step gridSize spriteWidth px py).y =
        -((getBackgroundPosition minValue step gridSize spriteWidth px py).row *
          (spriteWidth / gridSize)) := by
  have hq : quantizeToGrid (-15) 15 3 1 = 15 := by
    rw [quantizeToGrid_eval (-15) 15 3 1 5 (by norm_num) (by norm_num)]
    norm_num [clamp, jsMin, jsMax]
  have hbg : getBackgroundPosition (-15) 3 11 1100 15 15 = ⟨-1000, -1000, 10, 10⟩ := by
    rw [getBackgroundPosition_eval (-15) 3 11 1100 15 15 10 10 (by norm_num) (by norm_num)
      (by norm_num) (by norm_num)]
    norm_num [jsMin, jsMax]
  refine ⟨hq, by rw [hbg], by rw [hbg], by norm_num, by rw [hbg], by rw [hbg],
    fun _ _ _ _ _ _ => ⟨rfl, rfl⟩⟩

/-- Unfolding lemma for `quantizeToGrid` with the let-bindings reduced. -/
theorem quantizeToGrid_eq (minValue maxValue step val : ℚ) :
    quantizeToGrid minValue maxValue step val =
      clamp ((round ((minValue + ((val + 1) * (maxValue - minValue)) / 2) / step) : ℚ) * step)
        minValue maxValue := rfl

/-- C4 counterexample. The four constants `minValue = -14`, `maxValue = 16`,
`step = 3`, `gridSize = 11` satisfy the claimed precondition
`gridSize = (maxValue - minValue) / step + 1`, yet the normalized input
`-14/15` quantizes to `-12`, which is not of the form `minValue + k * step`
for any grid index `k < 11`, hence not a valid grid step. -/
theorem quantize_offgrid_counterexample :
    ((16 : ℚ) - -14) / 3 + 1 = 11 ∧
    quantizeToGrid (-14) 16 3 (-14 / 15) = -12 ∧
    (-12 : ℚ) ∉ [(-14 : ℚ), -11, -8, -5, -2, 1, 4, 7, 10, 13, 16] := by
  refine ⟨by norm_num, ?_, by norm_num⟩
  rw [quantizeToGrid_eval (-14) 16 3 (-14 / 15) (-4) (by norm_num) (by norm_num)]
  norm_num [clamp, jsMin, jsMax]

/-- C4 (amended). For every normalized input `v` in `[-1, 1]`, provided the
constants satisfy `gridSize = (maxValue - minValue) / step + 1` with
`step > 0` AND `minValue` is an integer multiple of `step` (the default
parameters `minValue = -15`, `maxValue = 15`, `step = 3`, `gridSize = 11`
satisfy both), `quantizeToGrid v` is a value of the grid
`{minValue, minValue + step, …, maxValue}`. -/
theorem quantize_mem_grid (minValue maxValue step : ℚ) (gridSize : ℕ) (a : ℤ)
    (hstep : 0 < step) (hmin : minValue = (a : ℚ) * step) (hg : 1 ≤ gridSize)
    (hrel : maxValue = minValue + ((gridSize : ℚ) - 1) * step)
    (v : ℚ) (hv1 : -1 ≤ v) (hv2 : v ≤ 1) :
    ∃ k : ℕ, k ≤ gridSize - 1 ∧
      quantizeToGrid minValue maxValue step v = minValue + (k : ℚ) * step := by
  have hgq : (1 : ℚ) ≤ (gridSize : ℚ) := by exact_mod_cast hg
  have hd0 : (0 : ℚ) ≤ maxValue - minValue := by nlinarith
  rw [quantizeToGrid_eq]
  generalize hraw : minValue + ((v + 1) * (maxValue - minValue)) / 2 = raw
  have h1 : minValue ≤ raw := by nlinarith
  have h2 : raw ≤ maxValue := by nlinarith
  have hq1 : (a : ℚ) ≤ raw / step := by
    rw [le_div_iff₀ hstep]; nlinarith
  have hcast : ((gridSize - 1 : ℕ) : ℚ) = (gridSize : ℚ) - 1 := by
    push_cast [Nat.cast_sub hg]; ring
  have hq2 : raw / step ≤ ((a + (gridSize - 1 : ℕ) : ℤ) : ℚ) := by
    rw [div_le_iff₀ hstep]; push_cast [hcast]; nlinarith
  generalize hm : round (raw / step) = m
  have hm1 : a ≤ m := by
    have h := round_mono_rat hq1
    rwa [round_intCast, hm] at h
  have hm2 : m ≤ a + (gridSize - 1 : ℕ) := by
    have h := round_mono_rat hq2
    rwa [round_intCast, hm] at h
  have hmq2 : (m : ℚ) ≤ (a : ℚ) + ((gridSize : ℚ) - 1) := by
    have : ((m : ℤ) : ℚ) ≤ ((a + (gridSize - 1 : ℕ) : ℤ) : ℚ) := by exact_mod_cast hm2
    push_cast [hcast] at this
    linarith
  have hmq1 : (a : ℚ) ≤ (m : ℚ) := by exact_mod_cast hm1
  have hms1 : minValue ≤ (m : ℚ) * step := by
    rw [hmin]; nlinarith
  have hms2 : (m : ℚ) * step ≤ maxValue := by
    rw [hrel, hmin]; nlinarith
  refine ⟨(m - a).toNat, by omega, ?_⟩
  rw [clamp_eq, min_eq_right hms2, max_eq_right hms1]
  have hk : (((m - a).toNat : ℕ) : ℚ) = (m : ℚ) - (a : ℚ) := by
    have h0 : ((m - a).toNat : ℤ) = m - a := Int.toNat_of_nonneg (by omega)
    have : (((m - a).toNat : ℤ) : ℚ) = ((m - a : ℤ) : ℚ) := by exact_mod_cast h0
    push_cast at this
    linarith
  rw [hk, hmin]; ring

/-- Witness for `quantize_mem_grid` at the default parameters with input 1. -/
theorem quantize_mem_grid_witness :
    ∃ k : ℕ, k ≤ 11 - 1 ∧ quantizeToGrid (-15) 15 3 1 = -15 + (k : ℚ) * 3 :=
  quantize_mem_grid (-15) 15 3 11 (-5) (by norm_num) (by norm_num) (by norm_num)
    (by norm_num) 1 (by norm_num) (by norm_num)

/-- C7. Quantization is idempotent under the default parameters: re-applying
the round-to-step-and-clamp operation to an already-quantized value
reproduces it, and hence resolves to the same grid cell in
`getBackgroundPosition`. -/
theorem quantize_idempotent (spriteWidth v : ℚ) (hv1 : -1 ≤ v) (hv2 : v ≤ 1) :
    snapToStep (-15) 15 3 (quantizeToGrid (-15) 15 3 v) = quantizeToGrid (-15) 15 3 v ∧
    getBackgroundPosition (-15) 3 11 spriteWidth
        (snapToStep (-15) 15 3 (quantizeToGrid (-15) 15 3 v))
        (snapToStep (-15) 15 3 (quantizeToGrid (-15) 15 3 v)) =
      getBackgroundPosition (-15) 3 11 spriteWidth
        (quantizeToGrid (-15) 15 3 v) (quantizeToGrid (-15) 15 3 v) := by
  have harg : ((-15 : ℚ) + ((v + 1) * (15 - -15)) / 2) / 3 = 5 * v := by ring
  have hq : quantizeToGrid (-15) 15 3 v = (round (5 * v) : ℚ) * 3 := by
    rw [quantizeToGrid_eq, harg]
    generalize hm : round (5 * v) = m
    have hm1 : -5 ≤ m := by
      have h := round_mono_rat (show (-5 : ℚ) ≤ 5 * v by linarith)
      rwa [show ((-5 : ℚ)) = ((-5 : ℤ) : ℚ) by norm_num, round_intCast, hm] at h
    have hm2 : m ≤ 5 := by
      have h := round_mono_rat (show 5 * v ≤ ((5 : ℤ) : ℚ) by exact_mod_cast (by linarith : 5 * v ≤ (5 : ℚ)))
      rwa [round_intCast, hm] at h
    have hb1 : (-15 : ℚ) ≤ (m : ℚ) * 3 := by
      have : (-5 : ℚ) ≤ (m : ℚ) := by exact_mod_cast hm1
      linarith
    have hb2 : (m : ℚ) * 3 ≤ 15 := by
      have : (m : ℚ) ≤ 5 := by exact_mod_cast hm2
      linarith
    rw [clamp_eq, min_eq_right hb2, max_eq_right hb1]
  have hsnap : snapToStep (-15) 15 3 ((round (5 * v) : ℚ) * 3) = (round (5 * v) : ℚ) * 3 := by
    generalize hm : round (5 * v) = m
    unfold snapToStep
    rw [show ((m : ℚ) * 3) / 3 = ((m : ℤ) : ℚ) by ring, round_intCast]
    have hm1 : -5 ≤ m := by
      have h := round_mono_rat (show (-5 : ℚ) ≤ 5 * v by linarith)
      rwa [show ((-5 : ℚ)) = ((-5 : ℤ) : ℚ) by norm_num, round_intCast, hm] at h
    have hm2 : m ≤ 5 := by
      have h := round_mono_rat (show 5 * v ≤ ((5 : ℤ) : ℚ) by exact_mod_cast (by linarith : 5 * v ≤ (5 : ℚ)))
      rwa [round_intCast, hm] at h
    have hb1 : (-15 : ℚ) ≤ (m : ℚ) * 3 := by
      have : (-5 : ℚ) ≤ (m : ℚ) := by exact_mod_cast hm1
      linarith
    have hb2 : (m : ℚ) * 3 ≤ 15 := by
      have : (m : ℚ) ≤ 5 := by exact_mod_cast hm2
      linarith
    rw [clamp_eq, min_eq_right hb2, max_eq_right hb1]
  have hfix : snapToStep (-15) 15 3 (quantizeToGrid (-15) 15 3 v) =
      quantizeToGrid (-15) 15 3 v := by
    rw [hq, hsnap]
  exact ⟨hfix, by rw [hfix]⟩

/-- Witness for `quantize_idempotent` at input 1/2. -/
theorem quantize_idempotent_witness :
    snapToStep (-15) 15 3 (quantizeToGrid (-15) 15 3 (1 / 2)) =
      quantizeToGrid (-15) 15 3 (1 / 2) ∧
    getBackgroundPosition (-15) 3 11 1100
        (snapToStep (-15) 15 3 (quantizeToGrid (-15) 15 3 (1 / 2)))
        (snapToStep (-15) 15 3 (quantizeToGrid (-15) 15 3 (1 / 2))) =
      getBackgroundPosition (-15) 3 11 1100
        (quantizeToGrid (-15) 15 3 (1 / 2)) (quantizeToGrid (-15) 15 3 (1 / 2)) :=
  quantize_idempotent 1100 (1 / 2) (by norm_num) (by norm_num)

theorem timerInv_initial : TimerInv initialState := Or.inl rfl

theorem updatePupil_timers (cfg : Config) (s : FLState) (px py : ℚ) (b : Bool) :
    (updatePupilPosition cfg s px py b).1.pendingTimers = s.pendingTimers ∧
    (updatePupilPosition cfg s px py b).1.idleTimerRef = s.idleTimerRef ∧
    (updatePupilPosition cfg s px py b).1.nextTimerId = s.nextTimerId :=
  ⟨rfl, rfl, rfl⟩

theorem timerInv_mount (cfg : Config) : TimerInv (mountComponent cfg).1 := Or.inl rfl

/-- Clearing then starting always leaves exactly the fresh timer pending. -/
theorem startClear_timers (s : FLState) (hs : TimerInv s) :
    (startIdleTimer (clearIdleTimer s)).pendingTimers = [s.nextTimerId] ∧
    (startIdleTimer (clearIdleTimer s)).idleTimerRef = some s.nextTimerId := by
  rcases hs with h | ⟨id0, hp, href⟩
  · unfold clearIdleTimer
    cases hr : s.idleTimerRef <;> simp [startIdleTimer, h, hr]
  · unfold clearIdleTimer
    rw [href]
    simp [startIdleTimer, hp]

theorem timerInv_startClear (s : FLState) (hs : TimerInv s) :
    TimerInv (startIdleTimer (clearIdleTimer s)) := by
  obtain ⟨h1, h2⟩ := startClear_timers s hs
  exact Or.inr ⟨s.nextTimerId, h1, h2⟩

theorem timerInv_step (cfg : Config) (s : FLState) (e : Event) (hs : TimerInv s) :
    TimerInv (stepEvent cfg s e).1 := by
  have hpm : ∀ x y : ℚ, TimerInv (handlePointerMove cfg s x y).1 := by
    intro x y
    unfold handlePointerMove
    cases hc : cfg.container with
    | none => exact hs
    | some rect =>
      simp only
      apply timerInv_startClear
      have h := updatePupil_timers cfg s
        (quantizeToGrid cfg.minValue cfg.maxValue cfg.step
          (clamp ((x - (rect.left + rect.width / 2)) / (rect.width / 2)) (-1) 1))
        (quantizeToGrid cfg.minValue cfg.maxValue cfg.step
          (clamp ((rect.top + rect.height / 2 - y) / (rect.height / 2)) (-1) 1)) true
      unfold TimerInv
      rw [h.1, h.2.1]
      exact hs
  cases e with
  | mouseMove x y => exact hpm x y
  | touchMove ts =>
    cases ts with
    | nil => exact hs
    | cons t rest => exact hpm t.1 t.2
  | touchEnd => exact timerInv_startClear s hs
  | timerFire id =>
    show TimerInv (fireIdleTimer s id).1
    unfold fireIdleTimer
    split
    · rcases hs with h | ⟨id0, hp, href⟩
      · exact Or.inl (by simp [h])
      · by_cases he : id0 = id
        · exact Or.inl (by simp [hp, he])
        · exact Or.inr ⟨id0, by simp [hp, List.erase_cons, he], href⟩
    · exact hs

theorem timerInv_run (cfg : Config) (es : List Event) (s : FLState) (hs : TimerInv s) :
    TimerInv (runEvents cfg s es).1 := by
  induction es generalizing s with
  | nil => exact hs
  | cons e es ih =>
    simp only [runEvents]
    exact ih _ (timerInv_step cfg s e hs)

/-- A state with no pending timer emits nothing on any sequence of timer
firings. -/
theorem fires_on_empty (cfg : Config) (ids : List ℕ) (s : FLState)
    (h : s.pendingTimers = []) :
    (runEvents cfg s (ids.map Event.timerFire)).2 = [] := by
  induction ids generalizing s with
  | nil => rfl
  | cons id ids ih =>
    simp only [List.map_cons, runEvents, stepEvent, fireIdleTimer, h]
    simp [ih s h]

/-- Under the timer invariant, any sequence of timer firings emits at most
one callback in total. -/
theorem fires_le_one (cfg : Config) (ids : List ℕ) (s : FLState) (hs : TimerInv s) :
    ((runEvents cfg s (ids.map Event.timerFire)).2).length ≤ 1 := by
  induction ids generalizing s with
  | nil => simp [runEvents]
  | cons id ids ih =>
    rcases hs with h | ⟨id0, hp, href⟩
    · rw [fires_on_empty cfg (id :: ids) s h]
      simp
    · simp only [List.map_cons, runEvents, stepEvent, fireIdleTimer]
      by_cases hmem : id ∈ s.pendingTimers
      · rw [if_pos hmem]
        rw [hp] at hmem
        simp at hmem
        subst hmem
        have hempty : ({ s with pendingTimers := s.pendingTimers.erase id }).pendingTimers
            = [] := by simp [hp]
        rw [fires_on_empty cfg ids _ hempty]
        simp [fadeToCenterCallbacks]
      · rw [if_neg hmem]
        simpa using ih s (Or.inr ⟨id0, hp, href⟩)

/-- C8. At most one idle timer is outstanding in any reachable state, and
once pointer events stop, the remaining timer firings produce at most one
timer-driven callback in total. -/
theorem single_outstanding_timer (cfg : Config) (es : List Event) :
    ((runEvents cfg (mountComponent cfg).1 es).1.pendingTimers).length ≤ 1 ∧
    ∀ ids : List ℕ,
      ((runEvents cfg (runEvents cfg (mountComponent cfg).1 es).1
        (ids.map Event.timerFire)).2).length ≤ 1 := by
  have hinv := timerInv_run cfg es _ (timerInv_mount cfg)
  constructor
  · rcases hinv with h | ⟨id0, hp, -⟩
    · simp [h]
    · simp [hp]
  · intro ids
    exact fires_le_one cfg ids _ hinv

/-- Concrete evaluation: normalized 1 quantizes to 15 by default. -/
theorem quantize_one_default : quantizeToGrid (-15) 15 3 1 = 15 := by
  rw [quantizeToGrid_eval (-15) 15 3 1 5 (by norm_num) (by norm_num)]
  norm_num [clamp, jsMin, jsMax]

/-- Concrete evaluation: normalized 0 quantizes to 0 by default. -/
theorem quantize_zero_default : quantizeToGrid (-15) 15 3 0 = 0 := by
  rw [quantizeToGrid_eval (-15) 15 3 0 0 (by norm_num) (by norm_num)]
  norm_num [clamp, jsMin, jsMax]

/-- Concrete evaluation: pupil (0, 0) resolves to the center cell (5, 5). -/
theorem bg_default_center (w : ℚ) :
    getBackgroundPosition (-15) 3 11 w 0 0 = ⟨-(5 * (w / 11)), -(5 * (w / 11)), 5, 5⟩ := by
  rw [getBackgroundPosition_eval (-15) 3 11 w 0 0 5 5 (by norm_num) (by norm_num)
    (by norm_num) (by norm_num)]
  norm_num [jsMin, jsMax, BGPos.mk.injEq]

/-- C9. On mount with the default parameters, the pupil is initialized to
(0, 0), the grid position is the center cell (5, 5) with the corresponding
render offset, and no callback is invoked; only subsequent events can invoke
one. -/
theorem mount_silent_center (spriteWidth : ℚ) (container : Option DomRect) :
    (mountComponent ⟨spriteWidth, 11, -15, 15, 3, container⟩).2 = [] ∧
    (mountComponent ⟨spriteWidth, 11, -15, 15, 3, container⟩).1.currentPupil = (0, 0) ∧
    (mountComponent ⟨spriteWidth, 11, -15, 15, 3, container⟩).1.gridPosition = (5, 5) ∧
    (mountComponent ⟨spriteWidth, 11, -15, 15, 3, container⟩).1.backgroundPosition =
      (-(5 * (spriteWidth / 11)), -(5 * (spriteWidth / 11))) := by
  have hbg := bg_default_center spriteWidth
  refine ⟨rfl, rfl, ?_, ?_⟩ <;>
    simp [mountComponent, updatePupilPosition, initialState, hbg]

/-- C2 (amended). When a pending idle timer fires, `onCenter` is invoked
exactly once and the timer is consumed, but the persisted pupil, grid and
background state are left unchanged: the timeout body only invokes the
callback. -/
theorem idle_fire_emits_center_once (s : FLState) (id : ℕ)
    (hmem : id ∈ s.pendingTimers) :
    (fireIdleTimer s id).2 = [Callback.center] ∧
    (fireIdleTimer s id).1.currentPupil = s.currentPupil ∧
    (fireIdleTimer s id).1.gridPosition = s.gridPosition ∧
    (fireIdleTimer s id).1.backgroundPosition = s.backgroundPosition ∧
    (fireIdleTimer s id).1.pendingTimers = s.pendingTimers.erase id := by
  simp [fireIdleTimer, hmem, fadeToCenterCallbacks]

/-- Witness for `idle_fire_emits_center_once` at a concrete state. -/
theorem idle_fire_emits_center_once_witness :
    (fireIdleTimer ⟨(15, 0), (-1000, -500), (10, 5), [7], some 7, 8⟩ 7).2 =
      [Callback.center] ∧
    (fireIdleTimer ⟨(15, 0), (-1000, -500), (10, 5), [7], some 7, 8⟩ 7).1.currentPupil =
      (FLState.mk (15, 0) (-1000, -500) (10, 5) [7] (some 7) 8).currentPupil ∧
    (fireIdleTimer ⟨(15, 0), (-1000, -500), (10, 5), [7], some 7, 8⟩ 7).1.gridPosition =
      (FLState.mk (15, 0) (-1000, -500) (10, 5) [7] (some 7) 8).gridPosition ∧
    (fireIdleTimer ⟨(15, 0), (-1000, -500), (10, 5), [7], some 7, 8⟩ 7).1.backgroundPosition =
      (FLState.mk (15, 0) (-1000, -500) (10, 5) [7] (some 7) 8).backgroundPosition ∧
    (fireIdleTimer ⟨(15, 0), (-1000, -500), (10, 5), [7], some 7, 8⟩ 7).1.pendingTimers =
      (FLState.mk (15, 0) (-1000, -500) (10, 5) [7] (some 7) 8).pendingTimers.erase 7 :=
  idle_fire_emits_center_once ⟨(15, 0), (-1000, -500), (10, 5), [7], some 7, 8⟩ 7
    (by simp)

/-- C2 counterexample. After a pointer event at an off-center position, the
idle timer fires: `onCenter` is invoked once, but the persisted pupil state
remains (15, 0); it does not become the centered (0, 0) state as claimed. -/
theorem idle_fire_keeps_pupil_counterexample :
    (runEvents ⟨1100, 11, -15, 15, 3, some ⟨0, 0, 2, 2⟩⟩
      (mountComponent ⟨1100, 11, -15, 15, 3, some ⟨0, 0, 2, 2⟩⟩).1
      [Event.mouseMove 2 1, Event.timerFire 0]).2 = [Callback.looking, Callback.center] ∧
    (runEvents ⟨1100, 11, -15, 15, 3, some ⟨0, 0, 2, 2⟩⟩
      (mountComponent ⟨1100, 11, -15, 15, 3, some ⟨0, 0, 2, 2⟩⟩).1
      [Event.mouseMove 2 1, Event.timerFire 0]).1.currentPupil = (15, 0) ∧
    ((15 : ℚ), (0 : ℚ)) ≠ ((0 : ℚ), (0 : ℚ)) := by
  refine ⟨?_, ?_, by norm_num⟩ <;>
    norm_num [runEvents, stepEvent, handlePointerMove, mountComponent, updatePupilPosition,
      initialState, clearIdleTimer, startIdleTimer, fireIdleTimer, fadeToCenterCallbacks,
      clamp, jsMin, jsMax, quantize_one_default, quantize_zero_default]

/-- Callback output of a pointer move with an attached container: exactly
one callback, chosen by whether the resolved pupil is (0, 0); it does not
depend on the previous state. -/
theorem handlePointerMove_callbacks (cfg : Config) (rect : DomRect)
    (hc : cfg.container = some rect) (s : FLState) (x y : ℚ) :
    (handlePointerMove cfg s x y).2 =
      [if quantizeToGrid cfg.minValue cfg.maxValue cfg.step
            (clamp ((x - (rect.left + rect.width / 2)) / (rect.width / 2)) (-1) 1) = 0 ∧
          quantizeToGrid cfg.minValue cfg.maxValue cfg.step
            (clamp ((rect.top + rect.height / 2 - y) / (rect.height / 2)) (-1) 1) = 0
        then Callback.center else Callback.looking] := by
  simp only [handlePointerMove, hc, updatePupilPosition, if_true]
  split <;> rfl

/-- C1 (amended). With an attached container, the component invokes a
callback on every pointer-move event, not only on state transitions: two
successive identical pointer events produce two invocations of the same
callback (`onLooking` twice when both resolve off-center, `onCenter` twice
when both resolve to (0, 0)). -/
theorem callback_on_every_pointer_event (cfg : Config) (rect : DomRect)
    (hc : cfg.container = some rect) (s : FLState) (x y : ℚ) :
    ∃ cb : Callback,
      (runEvents cfg s [Event.mouseMove x y, Event.mouseMove x y]).2 = [cb, cb] := by
  refine ⟨if quantizeToGrid cfg.minValue cfg.maxValue cfg.step
      (clamp ((x - (rect.left + rect.width / 2)) / (rect.width / 2)) (-1) 1) = 0 ∧
    quantizeToGrid cfg.minValue cfg.maxValue cfg.step
      (clamp ((rect.top + rect.height / 2 - y) / (rect.height / 2)) (-1) 1) = 0
    then Callback.center else Callback.looking, ?_⟩
  simp only [runEvents, stepEvent]
  rw [handlePointerMove_callbacks cfg rect hc s x y,
    handlePointerMove_callbacks cfg rect hc _ x y]
  simp

/-- Witness for `callback_on_every_pointer_event` at a concrete config. -/
theorem callback_on_every_pointer_event_witness :
    ∃ cb : Callback,
      (runEvents ⟨1100, 11, -15, 15, 3, some ⟨0, 0, 2, 2⟩⟩ initialState
        [Event.mouseMove 2 1, Event.mouseMove 2 1]).2 = [cb, cb] :=
  callback_on_every_pointer_event ⟨1100, 11, -15, 15, 3, some ⟨0, 0, 2, 2⟩⟩
    ⟨0, 0, 2, 2⟩ rfl initialState 2 1

/-- C1 counterexample. Two successive pointer events resolving to the same
off-center pupil (15, 0) invoke `onLooking` twice, once per event: callbacks
are not restricted to state transitions. -/
theorem looking_repeated_counterexample :
    (runEvents ⟨1100, 11, -15, 15, 3, some ⟨0, 0, 2, 2⟩⟩
      (mountComponent ⟨1100, 11, -15, 15, 3, some ⟨0, 0, 2, 2⟩⟩).1
      [Event.mouseMove 2 1, Event.mouseMove 2 1]).2 =
        [Callback.looking, Callback.looking] ∧
    (runEvents ⟨1100, 11, -15, 15, 3, some ⟨0, 0, 2, 2⟩⟩
      (mountComponent ⟨1100, 11, -15, 15, 3, some ⟨0, 0, 2, 2⟩⟩).1
      [Event.mouseMove 2 1]).1.currentPupil = (15, 0) ∧
    ((15 : ℚ), (0 : ℚ)) ≠ ((0 : ℚ), (0 : ℚ)) := by
  refine ⟨?_, ?_, by norm_num⟩ <;>
    norm_num [runEvents, stepEvent, handlePointerMove, mountComponent, updatePupilPosition,
      initialState, clearIdleTimer, startIdleTimer, fireIdleTimer, fadeToCenterCallbacks,
      clamp, jsMin, jsMax, quantize_one_default, quantize_zero_default]

/-- On a finite value, the JS-level quantizer agrees with the rational one
(step nonzero so the division is by a finite nonzero number). -/
theorem jquantize_fin (minValue maxValue step : ℚ) (hstep : step ≠ 0) (v : ℚ) :
    jquantizeToGrid minValue maxValue step (JSNum.fin v) =
      JSNum.fin (quantizeToGrid minValue maxValue step v) := by
  simp [jquantizeToGrid, jadd, jdiv, jmul, jround, jclamp, jmin, jmax, hstep,
    quantizeToGrid, clamp]

/-- NaN propagates through the JS-level quantizer. -/
theorem jquantize_nan (minValue maxValue step : ℚ) :
    jquantizeToGrid minValue maxValue step JSNum.nan = JSNum.nan := rfl

/-- Concrete evaluation: normalized -1 quantizes to -15 by default. -/
theorem quantize_negone_default : quantizeToGrid (-15) 15 3 (-1) = -15 := by
  rw [quantizeToGrid_eval (-15) 15 3 (-1) (-5) (by norm_num) (by norm_num)]
  norm_num [clamp, jsMin, jsMax]

/-- The default quantizer always lands in [-15, 15], whatever the input. -/
theorem quantize_default_range (v : ℚ) :
    -15 ≤ quantizeToGrid (-15) 15 3 v ∧ quantizeToGrid (-15) 15 3 v ≤ 15 := by
  rw [quantizeToGrid_eq, clamp_eq]
  constructor
  · exact le_max_left _ _
  · exact max_le (by norm_num) (min_le_left _ _)

/-- A non-NaN numerator over a positive finite divisor is not NaN. -/
theorem jdiv_jsub_ne_nan_left (z : JSNum) (hz : z ≠ JSNum.nan) (c d : ℚ) (hd : 0 < d) :
    jdiv (jsub z (JSNum.fin c)) (JSNum.fin d) ≠ JSNum.nan := by
  cases z with
  | fin q => simp [jsub, jdiv, hd.ne']
  | posInf => simp [jsub, jdiv, hd.le]
  | negInf => simp [jsub, jdiv, hd.le]
  | nan => exact absurd rfl hz

/-- Symmetric version for the inverted-Y numerator. -/
theorem jdiv_jsub_ne_nan_right (c : ℚ) (z : JSNum) (hz : z ≠ JSNum.nan) (d : ℚ) (hd : 0 < d) :
    jdiv (jsub (JSNum.fin c) z) (JSNum.fin d) ≠ JSNum.nan := by
  cases z with
  | fin q => simp [jsub, jdiv, hd.ne']
  | posInf => simp [jsub, jdiv, hd.le]
  | negInf => simp [jsub, jdiv, hd.le]
  | nan => exact absurd rfl hz

/-- Clamping a non-NaN JS number into [-1, 1] yields a finite value in
[-1, 1]: infinities saturate at the bounds. -/
theorem jclamp_unit_of_ne_nan (z : JSNum) (hz : z ≠ JSNum.nan) :
    ∃ c : ℚ, jclamp z (JSNum.fin (-1)) (JSNum.fin 1) = JSNum.fin c ∧ -1 ≤ c ∧ c ≤ 1 := by
  cases z with
  | fin q =>
    refine ⟨jsMax (-1) (jsMin 1 q), by simp [jclamp, jmin, jmax], ?_, ?_⟩
    · rw [jsMax_eq, jsMin_eq]; exact le_max_left _ _
    · rw [jsMax_eq, jsMin_eq]; exact max_le (by norm_num) (min_le_left _ _)
  | posInf =>
    refine ⟨1, ?_, by norm_num, by norm_num⟩
    simp [jclamp, jmin, jmax, jsMax]
  | negInf =>
    refine ⟨-1, ?_, by norm_num, by norm_num⟩
    simp [jclamp, jmin, jmax]
  | nan => exact absurd rfl hz

/-- C3 counterexample.  First conjunct: with an attached but zero-sized
tracking region, a pointer-move call is not a no-op — the divisions produce
infinities, which clamp to the extreme pupil values (15, -15), so the state
is updated and `onLooking` fires.  Second conjunct: a NaN pointer coordinate
propagates to a NaN pupil value rather than being clamped into range. -/
theorem pointer_edge_cases_counterexample :
    handlePointerMoveJS (some ⟨0, 0, 0, 0⟩) (-15) 15 3 (JSNum.fin 5) (JSNum.fin 5) =
      some (JSNum.fin 15, JSNum.fin (-15)) ∧
    handlePointerMoveJS (some ⟨0, 0, 2, 2⟩) (-15) 15 3 JSNum.nan (JSNum.fin 1) =
      some (JSNum.nan, JSNum.fin 0) := by
  have h1 : jquantizeToGrid (-15) 15 3 (JSNum.fin 1) = JSNum.fin 15 := by
    rw [jquantize_fin _ _ _ (by norm_num), quantize_one_default]
  have h2 : jquantizeToGrid (-15) 15 3 (JSNum.fin (-1)) = JSNum.fin (-15) := by
    rw [jquantize_fin _ _ _ (by norm_num), quantize_negone_default]
  have h0 : jquantizeToGrid (-15) 15 3 (JSNum.fin 0) = JSNum.fin 0 := by
    rw [jquantize_fin _ _ _ (by norm_num), quantize_zero_default]
  constructor
  · simp only [handlePointerMoveJS]
    norm_num [jsub, jdiv, jclamp, jmin, jmax, jsMin, jsMax, h1, h2]
  · simp only [handlePointerMoveJS]
    norm_num [jsub, jdiv, jclamp, jmin, jmax, jsMin, jsMax, h0, jquantize_nan]

/-- C3 (amended).  A pointer-move call with no attached tracking region is a
no-op.  With an attached region of positive width and height and non-NaN
(finite or infinite) pointer coordinates, the normalized values are clamped
into [-1, 1] and the resulting pupil values are finite and within
[minValue, maxValue] = [-15, 15]; no error is produced.  (A zero-sized
region does not disable updates, and NaN coordinates produce NaN pupils;
see the counterexample.) -/
theorem pointer_move_clamped (rect : DomRect) (hw : 0 < rect.width) (hh : 0 < rect.height)
    (clientX clientY : JSNum) (hx : clientX ≠ JSNum.nan) (hy : clientY ≠ JSNum.nan) :
    handlePointerMoveJS none (-15) 15 3 clientX clientY = none ∧
    ∃ px py : ℚ,
      handlePointerMoveJS (some rect) (-15) 15 3 clientX clientY =
        some (JSNum.fin px, JSNum.fin py) ∧
      -15 ≤ px ∧ px ≤ 15 ∧ -15 ≤ py ∧ py ≤ 15 := by
  refine ⟨rfl, ?_⟩
  have hw2 : 0 < rect.width / 2 := by linarith
  have hh2 : 0 < rect.height / 2 := by linarith
  obtain ⟨cx, hcx, -, -⟩ :=
    jclamp_unit_of_ne_nan _ (jdiv_jsub_ne_nan_left clientX hx (rect.left + rect.width / 2)
      (rect.width / 2) hw2)
  obtain ⟨cy, hcy, -, -⟩ :=
    jclamp_unit_of_ne_nan _ (jdiv_jsub_ne_nan_right (rect.top + rect.height / 2) clientY hy
      (rect.height / 2) hh2)
  refine ⟨quantizeToGrid (-15) 15 3 cx, quantizeToGrid (-15) 15 3 cy, ?_, ?_, ?_, ?_, ?_⟩
  · simp only [handlePointerMoveJS]
    rw [hcx, hcy, jquantize_fin _ _ _ (by norm_num), jquantize_fin _ _ _ (by norm_num)]
  · exact (quantize_default_range cx).1
  · exact (quantize_default_range cx).2
  · exact (quantize_default_range cy).1
  · exact (quantize_default_range cy).2

/-- Witness for `pointer_move_clamped` at a concrete region and inputs. -/
theorem pointer_move_clamped_witness :
    handlePointerMoveJS none (-15) 15 3 (JSNum.fin 100) JSNum.posInf = none ∧
    ∃ px py : ℚ,
      handlePointerMoveJS (some ⟨0, 0, 2, 2⟩) (-15) 15 3 (JSNum.fin 100) JSNum.posInf =
        some (JSNum.fin px, JSNum.fin py) ∧
      -15 ≤ px ∧ px ≤ 15 ∧ -15 ≤ py ∧ py ≤ 15 :=
  pointer_move_clamped ⟨0, 0, 2, 2⟩ (by norm_num) (by norm_num) (JSNum.fin 100)
    JSNum.posInf (by simp) (by simp)

/-- ROT13 is an involution on every code unit. -/
theorem rot13Char_involutive (c : ℕ) : rot13Char (rot13Char c) = c := by
  simp only [rot13Char]
  split_ifs <;> omega

/-- ROT13 is an involution on strings. -/
theorem rot13_rot13 (s : List ℕ) : rot13 (rot13 s) = s := by
  unfold rot13
  rw [List.map_map, show rot13Char ∘ rot13Char = id from funext rot13Char_involutive,
    List.map_id]

/-- The Base64 index function inverts the alphabet on valid sextets. -/
theorem b64Index_b64Char : ∀ s : ℕ, s < 64 → b64Index (b64Char s) = s := by decide

/-- The padding character is not in the Base64 alphabet. -/
theorem b64Char_ne_61 (s : ℕ) : b64Char s ≠ 61 := by
  simp only [b64Char]
  split_ifs <;> omega

/-- Base64 decoding inverts encoding on byte lists. -/
theorem b64Decode_b64Encode : ∀ bs : List ℕ, (∀ b ∈ bs, b < 256) →
    b64Decode (b64Encode bs) = bs
  | [], _ => rfl
  | [b0], h => by
    have hb0 : b0 < 256 := h b0 (by simp)
    simp only [b64Encode, b64Decode, if_pos rfl]
    rw [b64Index_b64Char _ (by omega), b64Index_b64Char _ (by omega)]
    have hv : b0 / 4 * 4 + b0 % 4 * 16 / 16 = b0 := by omega
    rw [hv]
    simp
  | [b0, b1], h => by
    have hb0 : b0 < 256 := h b0 (by simp)
    have hb1 : b1 < 256 := h b1 (by simp)
    simp only [b64Encode, b64Decode, if_neg (b64Char_ne_61 _), if_pos rfl]
    rw [b64Index_b64Char _ (by omega), b64Index_b64Char _ (by omega),
      b64Index_b64Char _ (by omega)]
    have h0 : b0 / 4 * 4 + (b0 % 4 * 16 + b1 / 16) / 16 = b0 := by omega
    have h1 : (b0 % 4 * 16 + b1 / 16) % 16 * 16 + b1 % 16 * 4 / 4 = b1 := by omega
    rw [h0, h1]
    simp
  | b0 :: b1 :: b2 :: b3 :: rest, h => by
    have hb0 : b0 < 256 := h b0 (by simp)
    have hb1 : b1 < 256 := h b1 (by simp)
    have hb2 : b2 < 256 := h b2 (by simp)
    have ih := b64Decode_b64Encode (b3 :: rest) (fun b hb => h b (by simp at hb ⊢; tauto))
    simp only [b64Encode, b64Decode, if_neg (b64Char_ne_61 _)]
    rw [b64Index_b64Char _ (by omega), b64Index_b64Char _ (by omega),
      b64Index_b64Char _ (by omega), b64Index_b64Char _ (by omega)]
    have h0 : b0 / 4 * 4 + (b0 % 4 * 16 + b1 / 16) / 16 = b0 := by omega
    have h1 : (b0 % 4 * 16 + b1 / 16) % 16 * 16 + (b1 % 16 * 4 + b2 / 64) / 4 = b1 := by
      omega
    have h2 : (b1 % 16 * 4 + b2 / 64) % 4 * 64 + b2 % 64 = b2 := by omega
    rw [h0, h1, h2, ih]
  | [b0, b1, b2], h => by
    have hb0 : b0 < 256 := h b0 (by simp)
    have hb1 : b1 < 256 := h b1 (by simp)
    have hb2 : b2 < 256 := h b2 (by simp)
    simp only [b64Encode, b64Decode, if_neg (b64Char_ne_61 _)]
    rw [b64Index_b64Char _ (by omega), b64Index_b64Char _ (by omega),
      b64Index_b64Char _ (by omega), b64Index_b64Char _ (by omega)]
    have h0 : b0 / 4 * 4 + (b0 % 4 * 16 + b1 / 16) / 16 = b0 := by omega
    have h1 : (b0 % 4 * 16 + b1 / 16) % 16 * 16 + (b1 % 16 * 4 + b2 / 64) / 4 = b1 := by
      omega
    have h2 : (b1 % 16 * 4 + b2 / 64) % 4 * 64 + b2 % 64 = b2 := by omega
    rw [h0, h1, h2]

/-- XOR with a cycled key is an involution. -/
theorem xorCycle_xorCycle (key : List ℕ) :
    ∀ (i : ℕ) (es : List ℕ), xorCycle key i (xorCycle key i es) = es
  | _, [] => rfl
  | i, c :: rest => by
    simp only [xorCycle]
    rw [Nat.xor_cancel_right, xorCycle_xorCycle key (i + 1) rest]

/-- XOR of two bytes is a byte. -/
theorem xor_lt_256 {e k : ℕ} (he : e < 256) (hk : k < 256) : e ^^^ k < 256 := by
  have h : Nat.bitwise bne e k < 2 ^ 8 :=
    Nat.bitwise_lt (by norm_num; omega) (by norm_num; omega)
  simpa [HXor.hXor, Xor.xor, Nat.xor] using h

/-- Truncation to bytes is the identity on byte lists. -/
theorem toBinaryBytes_eq_self (l : List ℕ) (h : ∀ c ∈ l, c < 256) :
    toBinaryBytes l = l := by
  unfold toBinaryBytes
  induction l with
  | nil => rfl
  | cons c rest ih =>
    simp only [List.map_cons, Nat.mod_eq_of_lt (h c (by simp)), List.cons.injEq, true_and]
    exact ih fun b hb => h b (by simp [hb])

/-- The XOR of a byte string with a byte key is a byte string. -/
theorem xorCycle_lt (key : List ℕ) (hkb : ∀ c ∈ key, c < 256) :
    ∀ (i : ℕ) (es : List ℕ), (∀ c ∈ es, c < 256) → ∀ c ∈ xorCycle key i es, c < 256
  | _, [], _ => by simp [xorCycle]
  | i, c :: rest, he => by
    simp only [xorCycle, List.mem_cons]
    rintro b (rfl | hb)
    · refine xor_lt_256 (he c (by simp)) ?_
      rcases Nat.lt_or_ge (i % key.length) key.length with hlt | hge
      · rw [List.getD_eq_getElem _ _ hlt]
        exact hkb _ (List.getElem_mem hlt)
      · rw [List.getD_eq_default _ _ hge]
        norm_num
    · exact xorCycle_lt key hkb (i + 1) rest (fun b hb2 => he b (by simp [hb2])) b hb

/-- C10 counterexample.  The email string consisting of the single code unit
9786 (a non-Latin-1 character) with the valid one-byte key [97] does not
round-trip: `Buffer.from(str, 'binary')` truncates the XORed unit to its low
byte, and the decoder reproduces 58 instead of 9786. -/
theorem email_roundtrip_counterexample :
    handleClickDecode (obfuscateEmail [9786] [97]).1 (obfuscateEmail [9786] [97]).2 =
      [58] ∧
    ([58] : List ℕ) ≠ [9786] ∧
    ([97] : List ℕ) ≠ [] ∧ (97 : ℕ) ≤ 255 := by
  refine ⟨by decide, by decide, by decide, by decide⟩

/-- C10 (amended).  For every email and every non-empty key whose code units
are all at most 255, the EmailLink decode pipeline inverts the generator
provided the email code units are also at most 255 (Latin-1): the binary
Buffer truncates every XORed unit to one byte, so larger email code units
cannot survive the round trip. -/
theorem email_obfuscation_roundtrip (email key : List ℕ) (hkne : key ≠ [])
    (hkb : ∀ c ∈ key, c < 256) (heb : ∀ c ∈ email, c < 256) :
    handleClickDecode (obfuscateEmail email key).1 (obfuscateEmail email key).2 =
      email := by
  simp only [obfuscateEmail, handleClickDecode]
  rw [rot13_rot13]
  have henc : ∀ c ∈ toBinaryBytes (xorCycle key 0 email), c < 256 := by
    intro c hc
    simp only [toBinaryBytes, List.mem_map] at hc
    obtain ⟨b, -, rfl⟩ := hc
    exact Nat.mod_lt _ (by norm_num)
  rw [b64Decode_b64Encode _ henc]
  rw [toBinaryBytes_eq_self _ (xorCycle_lt key hkb 0 email heb)]
  exact xorCycle_xorCycle key 0 email

/-- Witness for `email_obfuscation_roundtrip` on the email [106, 97, 107]
with key [107]. -/
theorem email_obfuscation_roundtrip_witness :
    handleClickDecode (obfuscateEmail [106, 97, 107] [107]).1
      (obfuscateEmail [106, 97, 107] [107]).2 = [106, 97, 107] :=
  email_obfuscation_roundtrip [106, 97, 107] [107] (by decide) (by decide) (by decide)

end Portfolio
